import Mathlib

/-!
# A verification model of the flappy-bird scene/animation engine (`bird.py`)

This file gives a shallow embedding of the animation-and-scene subsystem of
the game: the `Tile` entity (position / scale / source and destination
rectangles), the time-gated `Animator` family (`TextureAnimator`,
`ScrollAnimator`, `PathAnimator` driven by an `EasingEmit` chain of
`EasingIter` steps), the `Scene` entity-set operations, and the `PlayScene`
gameplay logic (pipe spawning, the jump chain, collision detection and
`game_over`).

Modelling conventions:
* Python wall-clock times, intervals and scale factors are modelled as `ℚ`
  (the source compares and accumulates them exactly; no claim here concerns
  float rounding).
* SDL rectangles hold C integers; they are modelled as `Int` fields.
* Python's `int(...)` conversion truncates toward zero; it is modelled by
  `pyInt` below via `Int.tdiv`.
* Python object mutation is modelled by explicit state passing: every
  mutating method becomes a function returning the updated value.
* The `EllipseEmit` path emitter (used only by the start screen's idle bob)
  is trigonometric and is not needed by any property below, so the
  `PathAnimator.emit` field is modelled as the `EasingEmit` alternative only
  (`none` models Python `None`).
-/

/-- Python `int(...)` applied to an exact rational: truncation toward zero
(`int(6.25) = 6`, `int(-6.25) = -6`). -/
def pyInt (q : ℚ) : Int := q.num.tdiv q.den

/-- Model of `sdl2.rect.SDL_Rect`: x, y, width, height (C integers). -/
structure Rect where
  x : Int
  y : Int
  w : Int
  h : Int
deriving DecidableEq, Repr

/-- Constant `WIDTH = 480` (screen width in pixels). -/
def WIDTH : Int := 480

/-- Constant `HEIGHT = 640` (screen height in pixels). -/
def HEIGHT : Int := 640

/-- Constant `SCALE = WIDTH/768` (global sprite scale factor). -/
def SCALE : ℚ := 480 / 768

/-- Constant `BIRD_SIZE = (92, 64)`. -/
def BIRD_SIZE : Int × Int := (92, 64)

/-- Constant `SCROLL_DIRECTION = (-4, 0)`. -/
def SCROLL_DIRECTION : Int × Int := (-4, 0)

/-- An easing curve, as selected by the `EasingEmit.linear` / `quad_in` /
`quad_in_out` helpers.  Modelled from the spec: an easing function is a
mapping from normalized progress to an interpolation ratio with `f 0 = 0`
and `f 1 = 1` (linear `f t = t`, quadratic-in `f t = t²`, quadratic-in-out
piecewise); the external `easing_functions` package that implements the
curves is not part of this repository.  The sine-based `quad_out` curve is
transcendental and is not used by the jump chain, so it is not modelled. -/
inductive EaseFunc where
  | linear
  | quadIn
  | quadInOut
deriving DecidableEq, Repr

/-- The interpolation ratio `f t` of an easing curve at progress `t`.
Modelled from the spec: the curve is applied to the (unclamped) progress
value that `EasingIter.update` computes. -/
def easeRatio : EaseFunc → ℚ → ℚ
  | .linear, t => t
  | .quadIn, t => t * t
  | .quadInOut, t => if t < 1 / 2 then 2 * t * t else -2 * t * t + 4 * t - 1

/-- The eased value between `start` and `endv` at progress `t`:
`endv * f t + start * (1 - f t)`.  Modelled from the spec: "duration-bounded
value interpolation with pluggable easing curves". -/
def easeValue (f : EaseFunc) (start endv t : ℚ) : ℚ :=
  endv * easeRatio f t + start * (1 - easeRatio f t)

/-- One `EasingIter` step of an easing chain.  The bound object/attribute is
always the animated tile's `y` attribute (the only attribute the game ever
drives), so it is left implicit; `easeStart` models `_ease_func` being `None`
until the first `update` lazily captures the start value. -/
structure EasingIter where
  target : ℚ
  duration : ℚ
  func : EaseFunc
  expend : ℚ
  isDone : Bool
  easeStart : Option ℚ
deriving DecidableEq, Repr

/-- Constructor `EasingIter.__init__(obj, param, target, func, duration)`:
`_duration = duration / 1000.0`, `_expend = 0.0`, `is_done = False`,
`_ease_func = None`. -/
def mkEasingIter (target : ℚ) (func : EaseFunc) (durationMs : ℚ) : EasingIter :=
  { target := target
    duration := durationMs / 1000
    func := func
    expend := 0
    isDone := false
    easeStart := none }

/-- The variant part of an animator: which `Animator` subclass it is, with
that subclass's own state.  `path` holds `PathAnimator.emit`: `none` for
Python `None`, `some chains` for an attached `EasingEmit`. -/
inductive AnimKind where
  | texture (frameCount : Nat) (frameRects : List Rect)
  | scroll (area : Rect) (dir : Int × Int) (rep : Bool)
  | path (emit : Option (List EasingIter))
deriving DecidableEq, Repr

/-- Python `type(a) == type(b)` on animator instances: same subclass. -/
def sameKind : AnimKind → AnimKind → Bool
  | .texture _ _, .texture _ _ => true
  | .scroll _ _ _, .scroll _ _ _ => true
  | .path _, .path _ => true
  | _, _ => false

/-- An `Animator` instance: the base-class tick state (`_ticks`,
`_last_ticks`, `interval`) plus the subclass state. -/
structure Animator where
  ticks : ℚ
  lastTicks : ℚ
  interval : ℚ
  kind : AnimKind
deriving DecidableEq, Repr

/-- Constructor `Animator.__init__`: `_ticks = 0`, `_last_ticks = 0`, `interval = 0.01`. -/
def mkAnimator (k : AnimKind) : Animator :=
  { ticks := 0, lastTicks := 0, interval := 1 / 100, kind := k }

/-- Method `Animator.check_ticks(delta)`: accumulate `delta` into `_ticks`; return
`False` when `_last_ticks != 0` and `_ticks - _last_ticks < interval`;
otherwise record `_last_ticks = _ticks` and return `True`. -/
def checkTicks (a : Animator) (delta : ℚ) : Bool × Animator :=
  let t := a.ticks + delta
  if a.lastTicks ≠ 0 ∧ t - a.lastTicks < a.interval then
    (false, { a with ticks := t })
  else
    (true, { a with ticks := t, lastTicks := t })

/-- A `Tile`: logical position `(x, y)` (`_x`, `_y`), scale `_scale`,
intrinsic sprite size `(_size[0], _size[1])`, computed size `(_w, _h)`,
vertical-flip flag, depth, source rectangle `src`, destination rectangle
`dest`, and the ordered animator list `actions`. -/
structure Tile where
  x : Int
  y : Int
  scale : ℚ
  sizeW : Int
  sizeH : Int
  w : Int
  h : Int
  flip : Bool
  depth : Int
  src : Rect
  dest : Rect
  actions : List Animator
deriving DecidableEq, Repr

/-- Constructor `Tile.__init__(sprite, x, y)` for a sprite of intrinsic size
`(sw, sh)`: scale 1, `_w, _h` the sprite size, `src = (0,0,sw,sh)`,
`dest = (x,y,sw,sh)`, no animators. -/
def mkTile (sw sh x y : Int) : Tile :=
  { x := x, y := y, scale := 1, sizeW := sw, sizeH := sh, w := sw, h := sh
    flip := false, depth := 0
    src := ⟨0, 0, sw, sh⟩, dest := ⟨x, y, sw, sh⟩, actions := [] }

/-- The `x` setter: `_x = value; dest.x = value`. -/
def setX (t : Tile) (v : Int) : Tile :=
  { t with x := v, dest := { t.dest with x := v } }

/-- The `y` setter: `_y = value; dest.y = value`. -/
def setY (t : Tile) (v : Int) : Tile :=
  { t with y := v, dest := { t.dest with y := v } }

/-- The `position` setter: `_x, _y = value; dest.x, dest.y = value`. -/
def setPosition (t : Tile) (p : Int × Int) : Tile :=
  { t with x := p.1, y := p.2, dest := { t.dest with x := p.1, y := p.2 } }

/-- Method `Tile._calc_size`: `_w = int(_size[0] * _scale)`,
`_h = int(_size[1] * _scale)`, `dest.w, dest.h = _w, _h`. -/
def calcSize (t : Tile) : Tile :=
  let w := pyInt ((t.sizeW : ℚ) * t.scale)
  let h := pyInt ((t.sizeH : ℚ) * t.scale)
  { t with w := w, h := h, dest := { t.dest with w := w, h := h } }

/-- The `scale` setter: no-op when the value is unchanged, otherwise store
it and recompute the sizes. -/
def setScale (t : Tile) (v : ℚ) : Tile :=
  if v = t.scale then t else calcSize { t with scale := v }

/-- The `size` setter: no-op when the value equals the intrinsic `_size`,
otherwise store it and recompute the sizes. -/
def setSize (t : Tile) (p : Int × Int) : Tile :=
  if p = (t.sizeW, t.sizeH) then t else calcSize { t with sizeW := p.1, sizeH := p.2 }

/-- Helper of `Tile.add_animator(anim, unique)`: when `unique`, delete the first
already-attached animator of the same subclass, then append `anim`. -/
def removeFirstSame : List Animator → AnimKind → List Animator
  | [], _ => []
  | b :: rest, k => if sameKind b.kind k then rest else b :: removeFirstSame rest k

/-- Method `Tile.add_animator(anim, unique=False)` (the attached object always has
a `do_animation` method in this model, so the `hasattr` rejection path is
unreachable). -/
def addAnimator (t : Tile) (a : Animator) (unique : Bool) : Tile :=
  let acts := if unique then removeFirstSame t.actions a.kind else t.actions
  { t with actions := acts ++ [a] }

/-- Method `TextureAnimator.do_animation(tile, delta)`: no-op when the frame
sequence is empty; otherwise advance the frame counter (resetting to 0 once
it exceeds 65535), select `frame_rects[count % size]`, write it into the
tile's source rectangle and force the tile's intrinsic size to the frame's
size.  Returns the new counter and the mutated tile. -/
def textureFire (frameCount : Nat) (frameRects : List Rect) (t : Tile) : Nat × Tile :=
  let size := frameRects.length
  if size < 1 then (frameCount, t)
  else
    let fc1 := frameCount + 1
    let fc := if fc1 > 65535 then 0 else fc1
    let rect := frameRects.getD (fc % size) ⟨0, 0, 0, 0⟩
    let t1 := { t with src := rect }
    (fc, setSize t1 (rect.w, rect.h))

/-- Function `textureFire` iterated `n` times (n consecutive firings). -/
def textureIterate (frameRects : List Rect) : Nat → Nat × Tile → Nat × Tile
  | 0, s => s
  | n + 1, s => textureIterate frameRects n (textureFire s.1 frameRects s.2)

/-- Method `ScrollAnimator.do_animation(tile, delta)`: translate `dest` by the
direction vector; when `repeat` is set, wrap each axis across the bound.
Writes `dest` directly — the tile's logical `_x`, `_y` are not touched. -/
def scrollFire (area : Rect) (dir : Int × Int) (rep : Bool) (t : Tile) : Tile :=
  let d0 := { t.dest with x := t.dest.x + dir.1, y := t.dest.y + dir.2 }
  if rep = false then { t with dest := d0 }
  else
    let d1 :=
      if dir.1 < 0 then
        if d0.x + d0.w < area.x then { d0 with x := area.w } else d0
      else
        if d0.x ≥ area.w then { d0 with x := area.x } else d0
    let d2 :=
      if dir.2 < 0 then
        if d1.y + d1.h < area.y then { d1 with y := area.h } else d1
      else
        if d1.y > area.h then { d1 with y := area.y } else d1
    { t with dest := d2 }

/-- Method `EasingIter.update(delta)` acting on the bound tile's `y` attribute:
lazily capture the start value from the current `y`, accumulate the delta,
mark the step done once the accumulated time reaches the duration, then set
`y` to the eased value at (unclamped) progress `expend / duration`, coerced
back to the attribute's original type (`int`). -/
def easingUpdate (c : EasingIter) (t : Tile) (delta : ℚ) : EasingIter × Tile :=
  let start := c.easeStart.getD (t.y : ℚ)
  let expend := c.expend + delta
  let done := c.isDone || decide (expend ≥ c.duration)
  let ratio := expend / c.duration
  let v := easeValue c.func start c.target ratio
  ({ c with easeStart := some start, expend := expend, isDone := done }, setY t (pyInt v))

/-- Method `EasingEmit.next(animator, tile, delta)`: update the front step of the
chain; while the front step reports done, pop it and continue with the next
step in the same call; stop at the first step that is not done (or when the
chain is exhausted).  Returns the remaining chain and the mutated tile (the
Python method returns `None`, so the caller never repositions the tile
itself). -/
def easingNext (chains : List EasingIter) (t : Tile) (delta : ℚ) :
    List EasingIter × Tile :=
  match chains with
  | [] => ([], t)
  | c :: rest =>
    let r := easingUpdate c t delta
    if r.1.isDone then easingNext rest r.2 delta
    else (r.1 :: rest, r.2)

/-- Animator dispatch of `do_animation(tile, delta)`: runs the subclass
behavior and returns the updated animator and tile.  A `PathAnimator` with
no emitter is a no-op. -/
def doAnimation (a : Animator) (t : Tile) (_delta : ℚ) : Animator × Tile :=
  match a.kind with
  | .texture fc rects =>
    let r := textureFire fc rects t
    ({ a with kind := .texture r.1 rects }, r.2)
  | .scroll area dir rep => (a, scrollFire area dir rep t)
  | .path none => (a, t)
  | .path (some chains) =>
    let r := easingNext chains t _delta
    ({ a with kind := .path (some r.1) }, r.2)

/-- Method `Tile.animation(delta)`: for each attached animator in order, run the
tick gate (which always accumulates the delta); when it fires, run the
animator's mutation on the tile. -/
def animation (t : Tile) (delta : ℚ) : Tile :=
  let r := t.actions.foldl
    (fun (acc : Tile × List Animator) a =>
      let g := checkTicks a delta
      if g.1 then
        let dres := doAnimation g.2 acc.1 delta
        (dres.2, acc.2 ++ [dres.1])
      else (acc.1, acc.2 ++ [g.2]))
    (t, [])
  { r.1 with actions := r.2 }

/-- Attribute `Scene.objects`, a Python `set` of tiles.  Python sets hash tiles by
object identity, so members are modelled by identity tokens (`ℕ`). -/
structure SceneSet where
  objects : Finset Nat
deriving DecidableEq

/-- Method `Scene.add_object(obj)`: `self.objects.add(obj)`. -/
def addObject (s : SceneSet) (o : Nat) : SceneSet :=
  ⟨insert o s.objects⟩

/-- Method `Scene.remove_object(obj)`: `self.objects.remove(obj)` — Python
`set.remove` raises `KeyError` when the element is not a member. -/
def removeObject (s : SceneSet) (o : Nat) : Except String SceneSet :=
  if o ∈ s.objects then .ok ⟨s.objects.erase o⟩ else .error "KeyError"

/-- The `PlayScene` state: the bird, floor and background tiles, the live
pipes, the stopped flag and the spawn cooldown.  The pipe sprite's intrinsic
size is carried as data (`img_pipe`). -/
structure PlayScene where
  bird : Tile
  floor : Tile
  background : Tile
  pipes : List Tile
  imgPipeW : Int
  imgPipeH : Int
  isStop : Bool
  colddown : ℚ
deriving DecidableEq, Repr

/-- The clamp at the head of `PlayScene.do_jump`:
`if self.bird.y <= -BIRD_SIZE[1]: self.bird.y = -BIRD_SIZE[1]`. -/
def clampJumpY (y : Int) : Int :=
  if y ≤ -BIRD_SIZE.2 then -BIRD_SIZE.2 else y

/-- The jump-chain `PathAnimator` built by `PlayScene.do_jump` from the
bird's (clamped) current `y`: a fresh `PathAnimator` whose `EasingEmit`
chain is linear to `y - 60` over 180 ms, quadratic-in to `y + 150` over
450 ms, then linear to `HEIGHT` over `HEIGHT - (y + 200)` ms. -/
def mkJumpAnim (y : Int) : Animator :=
  mkAnimator (.path (some
    [ mkEasingIter ((y : ℚ) - 60) .linear 180
    , mkEasingIter ((y : ℚ) + 150) .quadIn (180 * (5 / 2))
    , mkEasingIter (HEIGHT : ℚ) .linear ((HEIGHT : ℚ) - ((y : ℚ) + 200)) ]))

/-- Method `PlayScene.do_jump`: clamp the bird's `y` (via the `y` setter), build the
three-step jump chain from the clamped `y`, and attach it with
`add_animator(anim, True)` (unique: replace any attached `PathAnimator`). -/
def doJump (s : PlayScene) : PlayScene :=
  let bird1 := if s.bird.y ≤ -BIRD_SIZE.2 then setY s.bird (-BIRD_SIZE.2) else s.bird
  { s with bird := addAnimator bird1 (mkJumpAnim bird1.y) true }

/-- The AABB test of `PlayScene.check_bird_collision`'s pipe loop:
`bird.dest.x < p.dest.x + p.w and bird.dest.x + bird.w > p.dest.x and
bird.dest.y < p.dest.y + p.h and bird.dest.y + bird.h > p.dest.y`. -/
def pipeOverlap (bird p : Tile) : Bool :=
  decide (bird.dest.x < p.dest.x + p.w) && decide (bird.dest.x + bird.w > p.dest.x) &&
  decide (bird.dest.y < p.dest.y + p.h) && decide (bird.dest.y + bird.h > p.dest.y)

/-- The condition under which `PlayScene.check_bird_collision` calls
`game_over`: the floor check `bird.y + bird.size[1] >= floor.y`, or some
live pipe overlapping the bird. -/
def birdCollision (s : PlayScene) : Bool :=
  decide (s.bird.y + s.bird.h ≥ s.floor.y) || s.pipes.any (pipeOverlap s.bird)

/-- Method `PlayScene.game_over`: set the stopped flag and clear the animator lists
of the bird, the floor and every live pipe; no tile is removed. -/
def gameOver (s : PlayScene) : PlayScene :=
  { s with isStop := true
           bird := { s.bird with actions := [] }
           floor := { s.floor with actions := [] }
           pipes := s.pipes.map (fun p => { p with actions := [] }) }

/-- Method `PlayScene.check_bird_collision(delta)`: call `game_over` exactly when
the floor check or some pipe-overlap check fires. -/
def checkBirdCollision (s : PlayScene) : PlayScene :=
  if birdCollision s then gameOver s else s

/-- Method `PlayScene.gen_pipe` with the randomly drawn `mid_y` passed as data:
build the vertically flipped upper pipe and the lower pipe from the pipe
sprite at the screen's right edge, attach a non-repeating left scroll
animator to each, and add both to the live-pipe set. -/
def genPipe (s : PlayScene) (midY : Int) : PlayScene :=
  let fixedHeight : Int := 50
  let upPos : Int × Int := (WIDTH, midY - fixedHeight - 560)
  let downPos : Int × Int := (WIDTH, midY + fixedHeight)
  let upPipe :=
    setPosition { setScale (mkTile s.imgPipeW s.imgPipeH 0 0) SCALE with
                    flip := true, depth := 2 } upPos
  let downPipe :=
    setPosition { setScale (mkTile s.imgPipeW s.imgPipeH 0 0) SCALE with
                    depth := 2 } downPos
  let upAnim := mkAnimator (.scroll ⟨0, upPos.2, WIDTH, HEIGHT⟩ SCROLL_DIRECTION false)
  let downAnim := mkAnimator (.scroll ⟨0, downPos.2, WIDTH, HEIGHT⟩ SCROLL_DIRECTION false)
  { s with pipes := s.pipes ++ [addAnimator upPipe upAnim false,
                                addAnimator downPipe downAnim false] }

/-- Method `PlayScene.check_pipes(delta)` with the spawn's random `mid_y` passed as
data: drop every pipe whose right edge has left the screen, count the
cooldown down by the elapsed delta, and when it reaches zero spawn one pipe
pair and reset the cooldown to 2 seconds. -/
def checkPipes (s : PlayScene) (delta : ℚ) (midY : Int) : PlayScene :=
  if s.isStop then s
  else
    let remaining := s.pipes.filter (fun p => !(p.dest.x + p.dest.w ≤ 0 : Bool))
    let cd := s.colddown - delta
    let s1 := { s with pipes := remaining, colddown := cd }
    if cd ≤ 0 then { genPipe s1 midY with colddown := 2 } else s1

/-- Function `checkPipes` folded over a sequence of per-frame deltas (a fixed `mid_y`
is used for every spawn; no property below depends on it). -/
def runPipes (s : PlayScene) (ds : List ℚ) (midY : Int) : PlayScene :=
  ds.foldl (fun st d => checkPipes st d midY) s

/-- Method `PlayScene.process_objects(delta)`: the per-tile logic hooks are
no-ops; when not stopped, run the pipe bookkeeping and the collision
check. -/
def processObjects (s : PlayScene) (delta : ℚ) (midY : Int) : PlayScene :=
  if s.isStop then s else checkBirdCollision (checkPipes s delta midY)

/-- Method `Scene.process_animation(delta)` on a `PlayScene`: run `Tile.animation`
on every tile in the entity set. -/
def processAnimation (s : PlayScene) (delta : ℚ) : PlayScene :=
  { s with bird := animation s.bird delta
           floor := animation s.floor delta
           background := animation s.background delta
           pipes := s.pipes.map (fun p => animation p delta) }

/-- Method `Scene.process` on a `PlayScene` with the elapsed delta passed as data:
logic first (`process_objects`), then animation (`process_animation`). -/
def processScene (s : PlayScene) (delta : ℚ) (midY : Int) : PlayScene :=
  processAnimation (processObjects s delta midY) delta

/-- Function `pyInt` on an integer-valued rational is the identity. -/
theorem pyInt_intCast (n : Int) : pyInt (n : ℚ) = n := by
  simp [pyInt, Rat.num_intCast, Rat.den_intCast]

/-- Claim C2 counterexample.  A fresh animator (default interval `0.01`)
whose first `check_ticks(0)` fires at accumulated tick total `0` leaves the
`_last_ticks` zero sentinel in place, so the next `check_ticks(0.001)` also
fires even though only `0.001 < 0.01` has accumulated since the animator
last fired — refuting "returns True only when the accumulated time since
the animator last fired is ≥ its configured interval". -/
theorem check_ticks_interval_counterexample :
    (checkTicks (mkAnimator (.path none)) 0).1 = true ∧
    (checkTicks (mkAnimator (.path none)) 0).2.ticks = 0 ∧
    (checkTicks (checkTicks (mkAnimator (.path none)) 0).2 (1 / 1000)).1 = true ∧
    ((1 : ℚ) / 1000) < (mkAnimator (.path none)).interval := by
  refine ⟨?_, ?_, ?_, ?_⟩ <;> norm_num [checkTicks, mkAnimator]

/-- Claim C2, amended: `check_ticks(delta)` returns `True` exactly when the
recorded last-firing total is the zero sentinel (the animator never fired,
or last fired when the accumulated total was exactly zero) or the
accumulated total since the last firing has reached the interval. -/
theorem check_ticks_fire_iff (a : Animator) (d : ℚ) :
    (checkTicks a d).1 = true ↔
      (a.lastTicks = 0 ∨ a.interval ≤ a.ticks + d - a.lastTicks) := by
  unfold checkTicks
  by_cases h : a.lastTicks ≠ 0 ∧ a.ticks + d - a.lastTicks < a.interval
  · simp only [if_pos h]
    rcases h with ⟨h1, h2⟩
    simp only [show (false = true) = False from by simp, false_iff]
    rintro (hc | hc)
    · exact h1 hc
    · exact absurd h2 (not_lt.mpr hc)
  · simp only [if_neg h]
    push_neg at h
    simp only [show (true = true) = True from by simp, true_iff]
    by_cases hz : a.lastTicks = 0
    · exact Or.inl hz
    · exact Or.inr (h hz)

/-- Claim C10: a freshly constructed animator fires on its very first
`check_ticks` call for every delta and every configured interval (the
`_last_ticks` zero sentinel bypasses the interval gate); and whenever a
firing happens with accumulated tick total exactly zero, the following
`check_ticks` call fires as well, for every delta. -/
theorem first_check_ticks_fires :
    (∀ (k : AnimKind) (i d : ℚ),
        (checkTicks { mkAnimator k with interval := i } d).1 = true) ∧
    (∀ (a : Animator) (d e : ℚ), (checkTicks a d).1 = true → a.ticks + d = 0 →
        (checkTicks (checkTicks a d).2 e).1 = true) := by
  constructor
  · intro k i d
    simp [checkTicks, mkAnimator]
  · intro a d e hf h0
    unfold checkTicks at hf ⊢
    by_cases h : a.lastTicks ≠ 0 ∧ a.ticks + d - a.lastTicks < a.interval
    · rw [if_pos h] at hf; cases hf
    · rw [if_neg h]
      simp only
      rw [if_neg (by simp [h0])]

/-- Witness for `first_check_ticks_fires` at concrete inputs: interval 5,
first delta 3 (below the interval) still fires; and a firing at total 0
followed by a delta of 7 fires again. -/
theorem first_check_ticks_fires_witness :
    (checkTicks { mkAnimator (.path none) with interval := 5 } 3).1 = true ∧
    (checkTicks (checkTicks (mkAnimator (.path none)) 0).2 7).1 = true := by
  refine ⟨first_check_ticks_fires.1 (.path none) 5 3,
          first_check_ticks_fires.2 (mkAnimator (.path none)) 0 7 ?_ ?_⟩
  · norm_num [checkTicks, mkAnimator]
  · norm_num [mkAnimator]

/-- The destination-rectangle synchronisation invariant of a `Tile`: the
destination origin matches the logical position, and both size views match
the truncated product of intrinsic size and scale. -/
def TileSync (t : Tile) : Prop :=
  t.dest.x = t.x ∧ t.dest.y = t.y ∧
  t.w = pyInt ((t.sizeW : ℚ) * t.scale) ∧ t.h = pyInt ((t.sizeH : ℚ) * t.scale) ∧
  t.dest.w = t.w ∧ t.dest.h = t.h

/-- A repeating left-scrolling animator, as the floor carries. -/
def scrollCx : Animator := mkAnimator (.scroll ⟨0, 0, 480, 640⟩ SCROLL_DIRECTION true)

/-- Claim C1 counterexample.  (1) `ScrollAnimator.do_animation` writes the
destination rectangle directly: after one firing on a fresh 10×10 tile at
the origin, `dest.x = -4` while the logical `x` is still `0`, so dest and
`(x, y)` disagree while an animator is mutating the tile.  (2) With the
non-integral scale `5/8`, `dest.w` is the truncated `int(10 · 5/8) = 6`,
not the exact product `25/4`. -/
theorem tile_dest_sync_counterexample :
    ((doAnimation scrollCx (mkTile 10 10 0 0) 0).2.dest.x ≠
      (doAnimation scrollCx (mkTile 10 10 0 0) 0).2.x) ∧
    (((setScale (mkTile 10 10 0 0) (5 / 8)).dest.w : ℚ) ≠
      ((mkTile 10 10 0 0).sizeW : ℚ) * (5 / 8)) := by
  constructor
  · norm_num [doAnimation, scrollCx, mkAnimator, scrollFire, mkTile, SCROLL_DIRECTION]
  · have h25 : Int.tdiv 25 4 = 6 := by decide
    norm_num [setScale, mkTile, calcSize, pyInt, h25]

/-- Claim C1, amended: construction and every position/scale/size setter
leave the tile with its destination origin equal to `(x, y)` and both size
views equal to the truncated product `int(intrinsic × scale)` (which is the
exact product whenever that product is an integer).  Animators that write
`dest` directly (`ScrollAnimator`, `PathAnimator`) are not covered: they can
make `dest` and `(x, y)` disagree. -/
theorem tile_setters_dest_sync :
    (∀ sw sh x y : Int, TileSync (mkTile sw sh x y)) ∧
    (∀ (t : Tile) (v : Int), TileSync t → TileSync (setX t v)) ∧
    (∀ (t : Tile) (v : Int), TileSync t → TileSync (setY t v)) ∧
    (∀ (t : Tile) (p : Int × Int), TileSync t → TileSync (setPosition t p)) ∧
    (∀ (t : Tile) (v : ℚ), TileSync t → TileSync (setScale t v)) ∧
    (∀ (t : Tile) (p : Int × Int), TileSync t → TileSync (setSize t p)) := by
  refine ⟨?_, ?_, ?_, ?_, ?_, ?_⟩
  · intro sw sh x y
    refine ⟨rfl, rfl, ?_, ?_, rfl, rfl⟩ <;>
      simp [mkTile, mul_one, pyInt_intCast]
  · rintro t v ⟨h1, h2, h3, h4, h5, h6⟩
    exact ⟨rfl, h2, h3, h4, h5, h6⟩
  · rintro t v ⟨h1, h2, h3, h4, h5, h6⟩
    exact ⟨h1, rfl, h3, h4, h5, h6⟩
  · rintro t p ⟨h1, h2, h3, h4, h5, h6⟩
    exact ⟨rfl, rfl, h3, h4, h5, h6⟩
  · rintro t v ⟨h1, h2, h3, h4, h5, h6⟩
    unfold setScale
    split
    · exact ⟨h1, h2, h3, h4, h5, h6⟩
    · exact ⟨h1, h2, rfl, rfl, rfl, rfl⟩
  · rintro t p ⟨h1, h2, h3, h4, h5, h6⟩
    unfold setSize
    split
    · exact ⟨h1, h2, h3, h4, h5, h6⟩
    · exact ⟨h1, h2, rfl, rfl, rfl, rfl⟩

/-- Witness for `tile_setters_dest_sync` at concrete inputs: the invariant
holds for a fresh 92×64 tile at (100, 200) and is preserved by rescaling it
to `5/8`. -/
theorem tile_setters_dest_sync_witness :
    TileSync (mkTile 92 64 100 200) ∧
    TileSync (setScale (mkTile 92 64 100 200) (5 / 8)) :=
  ⟨tile_setters_dest_sync.1 92 64 100 200,
   tile_setters_dest_sync.2.2.2.2.1 (mkTile 92 64 100 200) (5 / 8)
     (tile_setters_dest_sync.1 92 64 100 200)⟩

/-- The `size` setter never touches the source rectangle. -/
theorem setSize_src (t : Tile) (p : Int × Int) : (setSize t p).src = t.src := by
  unfold setSize calcSize
  split <;> rfl

/-- State after `k ≥ 1` texture firings that stay below the counter wrap
bound: the counter has advanced by `k` and the source rectangle holds frame
`(fc + k) mod N`. -/
theorem textureIterate_state (rects : List Rect) (hN : 1 ≤ rects.length) :
    ∀ (k fc : Nat) (t : Tile), 1 ≤ k → fc + k ≤ 65535 →
      (textureIterate rects k (fc, t)).1 = fc + k ∧
      (textureIterate rects k (fc, t)).2.src =
        rects.getD ((fc + k) % rects.length) ⟨0, 0, 0, 0⟩ := by
  intro k
  induction k with
  | zero => intro fc t h _; exact absurd h (by norm_num)
  | succ n ih =>
    intro fc t _ hb
    have hfire : textureFire fc rects t =
        (fc + 1,
          setSize { t with src := rects.getD ((fc + 1) % rects.length) ⟨0, 0, 0, 0⟩ }
            ((rects.getD ((fc + 1) % rects.length) ⟨0, 0, 0, 0⟩).w,
             (rects.getD ((fc + 1) % rects.length) ⟨0, 0, 0, 0⟩).h)) := by
      have hlen : ¬rects.length < 1 := by omega
      have hwrap : ¬fc + 1 > 65535 := by omega
      simp only [textureFire, if_neg hlen, if_neg hwrap]
    have step : textureIterate rects (n + 1) (fc, t) =
        textureIterate rects n (textureFire fc rects t) := rfl
    rw [step, hfire]
    rcases Nat.eq_zero_or_pos n with hn | hn
    · subst hn
      exact ⟨rfl, setSize_src _ _⟩
    · have h2 := ih (fc + 1)
        (setSize { t with src := rects.getD ((fc + 1) % rects.length) ⟨0, 0, 0, 0⟩ }
          ((rects.getD ((fc + 1) % rects.length) ⟨0, 0, 0, 0⟩).w,
           (rects.getD ((fc + 1) % rects.length) ⟨0, 0, 0, 0⟩).h)) hn (by omega)
      have harith : fc + 1 + n = fc + (n + 1) := by omega
      rw [harith] at h2
      exact h2

/-- The three bird frames `PlayScene` installs (`frame_rects` at
bird.py:495). -/
def cycleRects : List Rect := [⟨0, 0, 92, 64⟩, ⟨92, 0, 92, 64⟩, ⟨184, 0, 92, 64⟩]

/-- Claim C3 counterexample.  (1) Across the wrap bound the cycle breaks:
with the game's own three bird frames, counter at 65533 (so the source holds
frame `65533 mod 3 = 1`), three firings step the counter 65534, 65535, 0
(the wrap skips the congruence class, since 65536 is not a multiple of 3)
and leave frame 0, not frame 1.  (2) A sequence of exactly one entry does
change the source rectangle on a tile whose source holds something else:
the single firing overwrites it with the lone entry. -/
theorem texture_cycle_counterexample :
    ((textureIterate cycleRects 3
        (65533, { mkTile 92 64 0 0 with src := ⟨92, 0, 92, 64⟩ })).2.src ≠
      ⟨92, 0, 92, 64⟩) ∧
    ((textureFire 0 [⟨0, 0, 92, 64⟩]
        { mkTile 92 64 0 0 with src := ⟨92, 0, 92, 64⟩ }).2.src ≠
      ⟨92, 0, 92, 64⟩) := by
  constructor <;> decide

/-- Claim C3, amended: as long as the frame counter stays at or below the
wrap bound 65535 throughout, firing a `TextureAnimator` with a sequence of
length N ≥ 1 a further N times after any `j ≥ 1` firings returns the source
rectangle to its value after the first `j` firings (period-N cycling away
from the wrap); an empty sequence makes firing a complete no-op; and a
sequence of exactly one entry pins the source rectangle to that entry from
the first firing on (so it never changes after the first firing, though the
first firing may overwrite a different pre-existing source rectangle). -/
theorem texture_cycle_period :
    (∀ (rects : List Rect) (fc j : Nat) (t : Tile),
        1 ≤ rects.length → 1 ≤ j → fc + j + rects.length ≤ 65535 →
        (textureIterate rects (j + rects.length) (fc, t)).2.src =
          (textureIterate rects j (fc, t)).2.src) ∧
    (∀ (fc : Nat) (t : Tile), textureFire fc [] t = (fc, t)) ∧
    (∀ (r : Rect) (fc : Nat) (t : Tile), (textureFire fc [r] t).2.src = r) := by
  refine ⟨?_, ?_, ?_⟩
  · intro rects fc j t hN hj hb
    have h1 := textureIterate_state rects hN (j + rects.length) fc t (by omega) (by omega)
    have h2 := textureIterate_state rects hN j fc t hj (by omega)
    rw [h1.2, h2.2]
    have : (fc + (j + rects.length)) % rects.length = (fc + j) % rects.length := by
      rw [← Nat.add_assoc, Nat.add_mod_right]
    rw [this]
  · intro fc t
    rfl
  · intro r fc t
    unfold textureFire
    rw [if_neg (by norm_num)]
    simp only [setSize_src, List.length_singleton, Nat.mod_one]
    rfl

/-- Witness for `texture_cycle_period` at concrete inputs: with the game's
three bird frames, one firing followed by three more lands on the same
source rectangle. -/
theorem texture_cycle_period_witness :
    (textureIterate cycleRects (1 + cycleRects.length)
        (0, mkTile 92 64 0 0)).2.src =
      (textureIterate cycleRects 1 (0, mkTile 92 64 0 0)).2.src :=
  texture_cycle_period.1 cycleRects 0 1 (mkTile 92 64 0 0)
    (by norm_num [cycleRects]) (by norm_num) (by norm_num [cycleRects])

/-- Every modelled easing curve evaluates to ratio 1 at progress 1. -/
theorem easeRatio_one (f : EaseFunc) : easeRatio f 1 = 1 := by
  cases f <;> norm_num [easeRatio]

/-- Claim C4 counterexample.  A linear step from the current `y = 0` to
target 10 over 1000 ms, updated once with an elapsed delta of 2 s: this is
the update call at which the accumulated time first reaches/exceeds the
duration (the step is marked done), yet the attribute is set to the
unclamped extrapolation `ease(2) = 20`, not the configured end value 10. -/
theorem easing_overshoot_counterexample :
    (easingUpdate (mkEasingIter 10 .linear 1000) (mkTile 5 5 0 0) 2).1.isDone = true ∧
    (easingUpdate (mkEasingIter 10 .linear 1000) (mkTile 5 5 0 0) 2).2.y = 20 ∧
    pyInt (mkEasingIter 10 .linear 1000).target = 10 := by
  refine ⟨?_, ?_, ?_⟩ <;>
    norm_num [easingUpdate, mkEasingIter, mkTile, easeValue, easeRatio, setY, pyInt]

/-- Claim C4, amended: at the update call at which the accumulated elapsed
time reaches the step's duration *exactly*, the step is marked done and the
target attribute is set to exactly the step's configured end value (coerced
to the attribute's integer type); and whenever the front step's update
leaves it done, `EasingEmit.next` pops it and processes the rest of the
chain with the same delta within the same call (no call is spent on a
finished step).  When the accumulated time strictly overshoots the
duration, the unclamped easing curve is evaluated past progress 1 and the
value can differ from the end value. -/
theorem easing_step_end_and_pop :
    (∀ (c : EasingIter) (t : Tile) (d : ℚ), 0 < c.duration →
        c.expend + d = c.duration →
        (easingUpdate c t d).1.isDone = true ∧
        (easingUpdate c t d).2.y = pyInt c.target) ∧
    (∀ (c : EasingIter) (rest : List EasingIter) (t : Tile) (d : ℚ),
        (easingUpdate c t d).1.isDone = true →
        easingNext (c :: rest) t d = easingNext rest (easingUpdate c t d).2 d) := by
  constructor
  · intro c t d hd hsum
    constructor
    · simp only [easingUpdate, hsum]
      simp
    · simp only [easingUpdate, hsum, setY]
      rw [div_self (ne_of_gt hd)]
      simp [easeValue, easeRatio_one]
  · intro c rest t d hdone
    simp only [easingNext]
    rw [if_pos hdone]

/-- Witness for `easing_step_end_and_pop` at concrete inputs: a linear step
to 10 over 1000 ms updated with exactly 1 s lands on `y = 10` and is done;
a two-step chain whose front step finishes moves on to the second step in
the same `next` call. -/
theorem easing_step_end_and_pop_witness :
    ((easingUpdate (mkEasingIter 10 .linear 1000) (mkTile 5 5 0 0) 1).1.isDone = true ∧
     (easingUpdate (mkEasingIter 10 .linear 1000) (mkTile 5 5 0 0) 1).2.y =
       pyInt (mkEasingIter 10 .linear 1000).target) ∧
    easingNext [mkEasingIter 10 .linear 1000, mkEasingIter 20 .quadIn 500]
        (mkTile 5 5 0 0) 1 =
      easingNext [mkEasingIter 20 .quadIn 500]
        (easingUpdate (mkEasingIter 10 .linear 1000) (mkTile 5 5 0 0) 1).2 1 := by
  refine ⟨easing_step_end_and_pop.1 _ _ 1 ?_ ?_, easing_step_end_and_pop.2 _ _ _ 1 ?_⟩
  · norm_num [mkEasingIter]
  · norm_num [mkEasingIter]
  · norm_num [easingUpdate, mkEasingIter, mkTile]

/-- Claim C9 counterexample.  `Scene.remove_object` calls Python
`set.remove`, which raises `KeyError` on a non-member: removing from a
scene with an empty entity set is an error, refuting "removing a tile that
is not (or no longer) a member does not raise an error". -/
theorem remove_object_keyerror_counterexample :
    removeObject ⟨∅⟩ 0 = .error "KeyError" := by
  rfl

/-- Claim C9, amended: adding the same tile twice via `add_object` has no
effect beyond adding it once; removing a member via `remove_object`
succeeds and takes effect immediately; but removing a non-member raises
`KeyError`. -/
theorem scene_membership_semantics :
    (∀ (s : SceneSet) (o : Nat), addObject (addObject s o) o = addObject s o) ∧
    (∀ (s : SceneSet) (o : Nat), o ∈ s.objects →
        removeObject s o = .ok ⟨s.objects.erase o⟩ ∧ o ∉ s.objects.erase o) ∧
    (∀ (s : SceneSet) (o : Nat), o ∉ s.objects →
        removeObject s o = .error "KeyError") := by
  refine ⟨?_, ?_, ?_⟩
  · intro s o
    simp [addObject, Finset.insert_idem]
  · intro s o hm
    exact ⟨by simp [removeObject, hm], Finset.not_mem_erase o s.objects⟩
  · intro s o hm
    simp [removeObject, hm]

/-- Witness for `scene_membership_semantics` at concrete inputs. -/
theorem scene_membership_semantics_witness :
    addObject (addObject ⟨{1, 2}⟩ 1) 1 = addObject ⟨{1, 2}⟩ 1 ∧
    removeObject ⟨{1, 2}⟩ 1 = .ok ⟨({1, 2} : Finset Nat).erase 1⟩ ∧
    removeObject ⟨{2}⟩ 1 = .error "KeyError" :=
  ⟨scene_membership_semantics.1 ⟨{1, 2}⟩ 1,
   (scene_membership_semantics.2.1 ⟨{1, 2}⟩ 1 (by decide)).1,
   scene_membership_semantics.2.2 ⟨{2}⟩ 1 (by decide)⟩

/-- Is this animator a `PathAnimator` (the jump-chain carrier)? -/
def isPathAnim (a : Animator) : Bool :=
  match a.kind with
  | .path _ => true
  | _ => false

/-- Python's exact-type test against a `PathAnimator` instance ignores the
instance's emitter payload. -/
theorem sameKind_path (a : Animator) (e : Option (List EasingIter)) :
    sameKind a.kind (.path e) = isPathAnim a := by
  cases h : a.kind <;> simp [sameKind, isPathAnim, h]

/-- Deleting the first `PathAnimator` from a list carrying exactly one
leaves a list carrying none. -/
theorem removeFirstSame_path_countP :
    ∀ (l : List Animator) (e : Option (List EasingIter)),
      l.countP isPathAnim = 1 →
      (removeFirstSame l (.path e)).countP isPathAnim = 0 := by
  intro l
  induction l with
  | nil => intro e _; simp [removeFirstSame]
  | cons b rest ih =>
    intro e h
    rw [List.countP_cons] at h
    by_cases hb : isPathAnim b = true
    · unfold removeFirstSame
      rw [sameKind_path, if_pos hb]
      simpa [hb] using h
    · unfold removeFirstSame
      rw [sameKind_path, if_neg hb]
      rw [List.countP_cons]
      simp only [hb, if_false, Nat.add_zero] at h ⊢
      simp only [Bool.false_eq_true] at *
      simpa using ih e (by simpa [hb] using h)

/-- Attaching a freshly built jump chain with `unique=True` to a bird
carrying exactly one `PathAnimator` leaves exactly one, and it is the new
chain. -/
theorem addAnimator_jump_spec (b : Tile) (y : Int)
    (h : b.actions.countP isPathAnim = 1) :
    (addAnimator b (mkJumpAnim y) true).actions.countP isPathAnim = 1 ∧
    (∀ a ∈ (addAnimator b (mkJumpAnim y) true).actions, isPathAnim a = true →
        a = mkJumpAnim y) := by
  have hacts : (addAnimator b (mkJumpAnim y) true).actions =
      removeFirstSame b.actions (mkJumpAnim y).kind ++ [mkJumpAnim y] := by
    simp [addAnimator]
  have h0 : (removeFirstSame b.actions (mkJumpAnim y).kind).countP isPathAnim = 0 :=
    removeFirstSame_path_countP _ _ h
  constructor
  · rw [hacts, List.countP_append, h0]
    rfl
  · intro a ha hp
    rw [hacts] at ha
    rcases List.mem_append.mp ha with hm | hm
    · exact absurd hp (List.countP_eq_zero.mp h0 a hm)
    · exact List.mem_singleton.mp hm

/-- Claim C5: invoking `do_jump` on a scene whose bird carries exactly one
jump-chain `PathAnimator` leaves the bird carrying exactly one again; every
`PathAnimator` then attached is the freshly built jump chain (the previous
chain is fully discarded, never merged); the bird's `y` is first clamped to
at least `-BIRD_SIZE[1] = -64` (so the jump never starts above that bound);
and the new chain is the three-step arc built from the clamped current `y`
with every step's start value still uncaptured (it is captured lazily from
the bird's then-current `y` at the step's first update). -/
theorem do_jump_unique_chain (s : PlayScene)
    (h : s.bird.actions.countP isPathAnim = 1) :
    (doJump s).bird.actions.countP isPathAnim = 1 ∧
    (∀ a ∈ (doJump s).bird.actions, isPathAnim a = true →
        a = mkJumpAnim (if s.bird.y ≤ -BIRD_SIZE.2 then -BIRD_SIZE.2 else s.bird.y)) ∧
    (doJump s).bird.y = (if s.bird.y ≤ -BIRD_SIZE.2 then -BIRD_SIZE.2 else s.bird.y) ∧
    -BIRD_SIZE.2 ≤ (doJump s).bird.y ∧
    (mkJumpAnim (doJump s).bird.y).kind = .path (some
      [ mkEasingIter (((doJump s).bird.y : ℚ) - 60) .linear 180
      , mkEasingIter (((doJump s).bird.y : ℚ) + 150) .quadIn (180 * (5 / 2))
      , mkEasingIter (HEIGHT : ℚ) .linear
          ((HEIGHT : ℚ) - (((doJump s).bird.y : ℚ) + 200)) ]) := by
  by_cases hy : s.bird.y ≤ -BIRD_SIZE.2
  · have hbird : (doJump s).bird =
        addAnimator (setY s.bird (-BIRD_SIZE.2)) (mkJumpAnim (-BIRD_SIZE.2)) true := by
      simp only [doJump]
      rw [if_pos hy]
      rfl
    have hs := addAnimator_jump_spec (setY s.bird (-BIRD_SIZE.2)) (-BIRD_SIZE.2)
      (by simpa [setY] using h)
    refine ⟨?_, ?_, ?_, ?_, rfl⟩
    · rw [hbird]; exact hs.1
    · intro a ha hp
      rw [hbird] at ha
      rw [if_pos hy]
      exact hs.2 a ha hp
    · rw [hbird, if_pos hy]; rfl
    · rw [hbird]; exact le_refl _
  · have hbird : (doJump s).bird = addAnimator s.bird (mkJumpAnim s.bird.y) true := by
      simp only [doJump]
      rw [if_neg hy]
    have hs := addAnimator_jump_spec s.bird s.bird.y h
    refine ⟨?_, ?_, ?_, ?_, rfl⟩
    · rw [hbird]; exact hs.1
    · intro a ha hp
      rw [hbird] at ha
      rw [if_neg hy]
      exact hs.2 a ha hp
    · rw [hbird, if_neg hy]; rfl
    · rw [hbird]
      exact le_of_lt (not_le.mp hy)

/-- A play-scene bird carrying the frame-cycle animator and one in-flight
jump chain, as after `PlayScene.__init__`. -/
def birdCx : Tile :=
  addAnimator (addAnimator (setPosition (mkTile 92 64 0 0) (148, 200))
    (mkAnimator (.texture 0 cycleRects)) false) (mkJumpAnim 200) false

/-- The bird tile of the spec's concrete collision scenario:
`dest = [100, 100, 92, 64]`. -/
def birdRectT : Tile := setPosition (mkTile 92 64 0 0) (100, 100)

/-- The pipe tile of the spec's concrete collision scenario:
`dest = [120, 110, 50, 400]`. -/
def pipeRectT : Tile := setPosition (mkTile 50 400 0 0) (120, 110)

/-- The same pipe displaced to `x = 300` (no overlap with the bird). -/
def pipeRectT300 : Tile := setPosition (mkTile 50 400 0 0) (300, 110)

/-- A play scene around the given bird, floor and pipes (not stopped). -/
def mkSceneCx (bird floor : Tile) (pipes : List Tile) : PlayScene :=
  { bird := bird, floor := floor, background := mkTile 480 640 0 0
    pipes := pipes, imgPipeW := 52, imgPipeH := 320
    isStop := false, colddown := 3 }

/-- Collision scenario: overlapping bird and pipe, floor far below. -/
def scenePipeHit : PlayScene :=
  mkSceneCx birdRectT (setPosition (mkTile 480 128 0 0) (0, 600)) [pipeRectT]

/-- No-collision scenario: pipe displaced to `x = 300`. -/
def scenePipeMiss : PlayScene :=
  mkSceneCx birdRectT (setPosition (mkTile 480 128 0 0) (0, 600)) [pipeRectT300]

/-- Floor scenario: bird bottom edge `200 + 64` exactly at the floor top. -/
def sceneFloorEq : PlayScene :=
  mkSceneCx (setPosition (mkTile 92 64 0 0) (100, 200))
    (setPosition (mkTile 480 128 0 0) (0, 264)) []

/-- Floor scenario: bird bottom edge one unit above the floor top. -/
def sceneFloorAbove : PlayScene :=
  mkSceneCx (setPosition (mkTile 92 64 0 0) (100, 200))
    (setPosition (mkTile 480 128 0 0) (0, 265)) []

/-- Witness for `do_jump_unique_chain` at a concrete scene whose bird holds
one in-flight jump chain: after `do_jump` it again holds exactly one. -/
theorem do_jump_unique_chain_witness :
    (doJump (mkSceneCx birdCx (setPosition (mkTile 480 128 0 0) (0, 600)) [])).bird.actions.countP
      isPathAnim = 1 :=
  (do_jump_unique_chain (mkSceneCx birdCx (setPosition (mkTile 480 128 0 0) (0, 600)) [])
    (by decide)).1

/-- The pipe-loop AABB test, spelled out as the four strict comparisons of
the source. -/
theorem pipeOverlap_iff (b p : Tile) :
    pipeOverlap b p = true ↔
      (b.dest.x < p.dest.x + p.w ∧ p.dest.x < b.dest.x + b.w ∧
       b.dest.y < p.dest.y + p.h ∧ p.dest.y < b.dest.y + b.h) := by
  unfold pipeOverlap
  simp [and_assoc, gt_iff_lt]

/-- Method `game_over` fires exactly on the floor check or some live pipe
overlap. -/
theorem birdCollision_iff (s : PlayScene) :
    birdCollision s = true ↔
      (s.floor.y ≤ s.bird.y + s.bird.h ∨ ∃ p ∈ s.pipes, pipeOverlap s.bird p = true) := by
  unfold birdCollision
  simp [List.any_eq_true, ge_iff_le]

/-- Claim C6: on a non-stopped frame, the collision check stops the scene
exactly when the bird's bottom edge (`bird.y + bird height`) reaches or
passes the floor's top edge, or the bird's destination rectangle has strict
axis-aligned bounding-box overlap with some live pipe; in particular the
spec's concrete scenarios behave as stated (bird `[100,100,92,64]` against
pipe `[120,110,50,400]` collides, the pipe at `x = 300` does not, bottom
edge equal to the floor top collides, one unit above does not). -/
theorem collision_detection_characterization :
    (∀ s : PlayScene, s.isStop = false →
      (((checkBirdCollision s).isStop = true) ↔
        (s.floor.y ≤ s.bird.y + s.bird.h ∨ ∃ p ∈ s.pipes,
          s.bird.dest.x < p.dest.x + p.w ∧ p.dest.x < s.bird.dest.x + s.bird.w ∧
          s.bird.dest.y < p.dest.y + p.h ∧ p.dest.y < s.bird.dest.y + s.bird.h))) ∧
    (checkBirdCollision scenePipeHit).isStop = true ∧
    (checkBirdCollision scenePipeMiss).isStop = false ∧
    (checkBirdCollision sceneFloorEq).isStop = true ∧
    (checkBirdCollision sceneFloorAbove).isStop = false := by
  refine ⟨?_, by decide, by decide, by decide, by decide⟩
  intro s hstop
  unfold checkBirdCollision
  by_cases hc : birdCollision s = true
  · rw [if_pos hc]
    constructor
    · intro _
      rcases (birdCollision_iff s).mp hc with h1 | ⟨p, hp, ho⟩
      · exact Or.inl h1
      · exact Or.inr ⟨p, hp, (pipeOverlap_iff _ _).mp ho⟩
    · intro _
      rfl
  · rw [if_neg hc]
    constructor
    · intro habs
      rw [hstop] at habs
      cases habs
    · intro hr
      exfalso
      apply hc
      apply (birdCollision_iff s).mpr
      rcases hr with h1 | ⟨p, hp, ho⟩
      · exact Or.inl h1
      · exact Or.inr ⟨p, hp, (pipeOverlap_iff _ _).mpr ho⟩

/-- Witness for `collision_detection_characterization` at the concrete
overlap scenario. -/
theorem collision_detection_characterization_witness :
    (checkBirdCollision scenePipeHit).isStop = true :=
  (collision_detection_characterization.1 scenePipeHit rfl).mpr
    (Or.inr ⟨pipeRectT, List.mem_cons_self pipeRectT [], by decide⟩)

/-- A tile with no attached animators is unchanged by `Tile.animation`. -/
theorem animation_nil (t : Tile) (d : ℚ) (h : t.actions = []) :
    animation t d = t := by
  unfold animation
  rw [h]
  simp only [List.foldl_nil]
  cases t
  simp only at h
  subst h
  rfl

/-- Clearing the animators of every tile of a list and then animating each
tile is the same as just clearing: no cleared tile moves. -/
theorem map_animation_cleared (d : ℚ) :
    ∀ l : List Tile,
      (l.map (fun p => ({ p with actions := [] } : Tile))).map (fun p => animation p d) =
        l.map (fun p => ({ p with actions := [] } : Tile)) := by
  intro l
  induction l with
  | nil => rfl
  | cons q qs ih =>
    simp only [List.map_cons]
    rw [animation_nil _ d rfl, ih]

/-- Claim C7: `game_over` sets the stopped flag and clears every animator
from the bird, the floor and every live pipe, while keeping every tile (and
its destination rectangle) in place; consequently a whole scene `process`
call on the stopped scene is the identity — every subsequent frame renders
the identical frozen destination rectangles.  (The background never
carries animators in the game; that is the `hbg` hypothesis.) -/
theorem game_over_freezes_scene (s : PlayScene) (hbg : s.background.actions = [])
    (d : ℚ) (m : Int) :
    (gameOver s).isStop = true ∧
    (gameOver s).bird.actions = [] ∧
    (gameOver s).floor.actions = [] ∧
    (∀ p ∈ (gameOver s).pipes, p.actions = []) ∧
    (gameOver s).pipes.length = s.pipes.length ∧
    (gameOver s).bird.dest = s.bird.dest ∧
    (gameOver s).floor.dest = s.floor.dest ∧
    (gameOver s).background = s.background ∧
    (gameOver s).pipes.map Tile.dest = s.pipes.map Tile.dest ∧
    processScene (gameOver s) d m = gameOver s := by
  refine ⟨rfl, rfl, rfl, ?_, by simp [gameOver], rfl, rfl, rfl, ?_, ?_⟩
  · intro p hp
    rcases List.mem_map.mp hp with ⟨q, _, rfl⟩
    rfl
  · show (s.pipes.map (fun p => ({ p with actions := [] } : Tile))).map Tile.dest =
      s.pipes.map Tile.dest
    rw [List.map_map]
    rfl
  · have hobj : processObjects (gameOver s) d m = gameOver s := by
      unfold processObjects
      rw [show (gameOver s).isStop = true from rfl]
      simp
    unfold processScene
    rw [hobj]
    unfold processAnimation
    rw [animation_nil (gameOver s).bird d rfl,
        animation_nil (gameOver s).floor d rfl,
        animation_nil (gameOver s).background d hbg,
        show (gameOver s).pipes = s.pipes.map (fun p => ({ p with actions := [] } : Tile))
          from rfl,
        map_animation_cleared d s.pipes]
    rfl

/-- Witness for `game_over_freezes_scene` at a concrete scene: one `process`
call after `game_over` leaves the stopped collision scene unchanged. -/
theorem game_over_freezes_scene_witness :
    processScene (gameOver scenePipeHit) (1 / 60) 200 = gameOver scenePipeHit :=
  (game_over_freezes_scene scenePipeHit rfl (1 / 60) 200).2.2.2.2.2.2.2.2.2

/-- Rescaling never touches the flip flag. -/
theorem setScale_flip (t : Tile) (v : ℚ) : (setScale t v).flip = t.flip := by
  unfold setScale calcSize
  split <;> rfl

/-- Method `gen_pipe` adds exactly one pipe pair: the flipped upper pipe and the
unflipped lower pipe, appended to the live set. -/
theorem genPipe_pipes (s : PlayScene) (m : Int) :
    (genPipe s m).pipes.length = s.pipes.length + 2 ∧
    (genPipe s m).pipes.map Tile.flip = s.pipes.map Tile.flip ++ [true, false] := by
  constructor
  · simp [genPipe, addAnimator]
  · simp [genPipe, addAnimator, setPosition, setScale_flip, mkTile]

/-- A `check_pipes` frame that does not reach the spawn threshold on a
pipe-free, running scene only counts the cooldown down. -/
theorem checkPipes_no_spawn (s : PlayScene) (d : ℚ) (m : Int)
    (hstop : s.isStop = false) (hp : s.pipes = []) (hcd : ¬s.colddown - d ≤ 0) :
    checkPipes s d m = { s with pipes := [], colddown := s.colddown - d } := by
  simp only [checkPipes, hstop, Bool.false_eq_true, if_false, hp, List.filter_nil]
  rw [if_neg hcd]

/-- A `check_pipes` frame that reaches the spawn threshold on a running
scene spawns the pair and resets the cooldown to 2. -/
theorem checkPipes_spawn (s : PlayScene) (d : ℚ) (m : Int)
    (hstop : s.isStop = false) (hcd : s.colddown - d ≤ 0) :
    checkPipes s d m =
      { genPipe { s with
          pipes := s.pipes.filter (fun p => !(p.dest.x + p.dest.w ≤ 0 : Bool)),
          colddown := s.colddown - d } m with colddown := 2 } := by
  simp only [checkPipes, hstop, Bool.false_eq_true, if_false]
  rw [if_pos hcd]

/-- Folding `check_pipes` over deltas none of whose partial sums reach the
cooldown, starting pipe-free and running, just counts the cooldown down. -/
theorem runPipes_no_spawn (m : Int) :
    ∀ (ds : List ℚ) (s : PlayScene), s.isStop = false → s.pipes = [] →
      (∀ i, i < ds.length → (ds.take (i + 1)).sum < s.colddown) →
      runPipes s ds m = { s with pipes := [], colddown := s.colddown - ds.sum } := by
  intro ds
  induction ds with
  | nil =>
    intro s h1 h2 _
    have h0 : runPipes s [] m = s := rfl
    rw [h0]
    cases s
    simp only at h2
    subst h2
    simp
  | cons d rest ih =>
    intro s h1 h2 hpre
    have hd : ¬s.colddown - d ≤ 0 := by
      have h0 := hpre 0 (by simp)
      simp only [List.take_succ_cons, List.take_zero, List.sum_cons, List.sum_nil,
        add_zero] at h0
      linarith
    have hstep := checkPipes_no_spawn s d m h1 h2 hd
    have hrw : runPipes s (d :: rest) m = runPipes (checkPipes s d m) rest m := rfl
    have hpre2 : ∀ i, i < rest.length →
        (rest.take (i + 1)).sum <
          ({ s with pipes := ([] : List Tile), colddown := s.colddown - d } :
            PlayScene).colddown := by
      intro i hi
      have h3 := hpre (i + 1) (by simpa using Nat.succ_lt_succ hi)
      rw [List.take_succ_cons, List.sum_cons] at h3
      show (rest.take (i + 1)).sum < s.colddown - d
      linarith
    rw [hrw, hstep,
        ih { s with pipes := ([] : List Tile), colddown := s.colddown - d } h1 rfl hpre2]
    cases s
    simp [List.sum_cons, sub_sub]

/-- Claim C8: starting from a fresh play scene (cooldown 3 seconds, no
pipes, not stopped), any sequence of per-frame deltas whose proper partial
sums stay below 3 and whose total is exactly 3 produces exactly one
obstacle pair — the flipped upper pipe and the lower pipe — precisely at
the last frame (every proper prefix leaves the pipe set empty), with the
cooldown then reset to 2; moreover every spawning `check_pipes` frame (on
any running scene) resets the cooldown to 2. -/
theorem pipe_spawn_cooldown :
    (∀ (s : PlayScene) (ds : List ℚ) (m : Int),
        s.isStop = false → s.pipes = [] → s.colddown = 3 →
        (∀ i, i < ds.length → (ds.take i).sum < 3) → ds.sum = 3 →
        ((runPipes s ds m).pipes.length = 2 ∧
         (runPipes s ds m).pipes.map Tile.flip = [true, false] ∧
         (runPipes s ds m).colddown = 2 ∧
         (∀ i, i < ds.length → (runPipes s (ds.take i) m).pipes = []))) ∧
    (∀ (s : PlayScene) (d : ℚ) (m : Int), s.isStop = false → s.colddown - d ≤ 0 →
        (checkPipes s d m).colddown = 2) := by
  constructor
  · intro s ds m h1 h2 h3 hpre hsum
    rcases List.eq_nil_or_concat ds with hnil | ⟨L, b, hds⟩
    · rw [hnil] at hsum
      simp at hsum
    rw [List.concat_eq_append] at hds
    subst hds
    have hLsum : L.sum + b = 3 := by
      simpa [List.sum_append] using hsum
    have hL : runPipes s L m = { s with pipes := [], colddown := s.colddown - L.sum } := by
      apply runPipes_no_spawn m L s h1 h2
      intro i hi
      rw [h3]
      have h4 := hpre (i + 1) (by rw [List.length_append]; simp; omega)
      rwa [List.take_append_of_le_length (by omega)] at h4
    have hsplit : runPipes s (L ++ [b]) m = checkPipes (runPipes s L m) b m := by
      simp [runPipes, List.foldl_append]
    have hcd0 : ({ s with pipes := ([] : List Tile), colddown := s.colddown - L.sum } :
        PlayScene).colddown - b ≤ 0 := by
      show s.colddown - L.sum - b ≤ 0
      rw [h3]
      linarith
    have hfin : runPipes s (L ++ [b]) m =
        { (genPipe { s with
            pipes := ([] : List Tile),
            colddown := s.colddown - L.sum - b } m) with colddown := 2 } := by
      rw [hsplit, hL]
      exact checkPipes_spawn _ b m h1 hcd0
    refine ⟨?_, ?_, ?_, ?_⟩
    · rw [hfin]
      have hg := (genPipe_pipes { s with
        pipes := ([] : List Tile),
        colddown := s.colddown - L.sum - b } m).1
      simpa using hg
    · rw [hfin]
      have hg := (genPipe_pipes { s with
        pipes := ([] : List Tile),
        colddown := s.colddown - L.sum - b } m).2
      simpa using hg
    · rw [hfin]
    · intro i hi
      have hile : i ≤ L.length := by
        rw [List.length_append] at hi
        simp at hi
        omega
      rw [List.take_append_of_le_length hile]
      have hcond : ∀ j, j < (L.take i).length →
          ((L.take i).take (j + 1)).sum < s.colddown := by
        intro j hj
        have hj1 : j + 1 ≤ i := by
          rw [List.length_take] at hj
          omega
        rw [List.take_take, Nat.min_eq_left hj1, h3]
        have hlen : j + 1 < (L ++ [b]).length := by
          rw [List.length_append]
          simp
          omega
        have h5 := hpre (j + 1) hlen
        rwa [List.take_append_of_le_length (by omega)] at h5
      rw [runPipes_no_spawn m (L.take i) s h1 h2 hcond]
  · intro s d m h1 hcd
    rw [checkPipes_spawn s d m h1 hcd]

/-- Witness for `pipe_spawn_cooldown` at a concrete run: a fresh scene fed
three one-second frames spawns exactly one pipe pair. -/
theorem pipe_spawn_cooldown_witness :
    (runPipes (mkSceneCx birdRectT (setPosition (mkTile 480 128 0 0) (0, 600)) [])
        [1, 1, 1] 200).pipes.length = 2 := by
  have h := pipe_spawn_cooldown.1
    (mkSceneCx birdRectT (setPosition (mkTile 480 128 0 0) (0, 600)) []) [1, 1, 1] 200
    rfl rfl rfl ?_ ?_
  · exact h.1
  · intro i hi
    simp only [List.length_cons, List.length_nil] at hi
    interval_cases i <;>
      norm_num [List.take_succ_cons, List.take_zero, List.sum_cons, List.sum_nil]
  · norm_num [List.sum_cons, List.sum_nil]
